import Mathlib

/-!
Shallow embedding of the raster tile generation pipeline of
`src/backend/processor.py` (with the catalog reader of `src/app.py`),
and proofs about its behavior.

Conventions of the embedding:
* machine floats are modelled as `ℚ`; a NaN sample is `Option.none`;
* the filesystem is an association list from path to artifact content
  (a later write shadows an earlier one, lookup returns the latest);
* library calls (the cfgrib decoder, xarray bilinear interpolation) are
  modelled as parameters: the per-key pipeline receives the decoded field
  and the converted resampled sample array as inputs, and the embedding
  covers everything the repository code itself does with them.
-/

/-- An RGBA pixel with channels in `[0,1]`, as produced by a matplotlib
colormap lookup. -/
structure RGBA where
  r : ℚ
  g : ℚ
  b : ℚ
  a : ℚ
deriving DecidableEq

/-- A decoded grid as the per-axis coordinate arrays of an xarray
`DataArray` (`latitude`, `longitude`); the 2-D value grid has size
`lats.length * lons.length`.  Values are carried separately by the
pipeline stages that use them. -/
structure GridField where
  lats : List ℚ
  lons : List ℚ
deriving DecidableEq

/-- One entry of the `REGIONS` table of `processor.py`: the
`extent = [lon_min, lon_max, lat_min, lat_max]` bounding box and
`max_fhr`. -/
structure RegionSpec where
  lonMin : ℚ
  lonMax : ℚ
  latMin : ℚ
  latMax : ℚ
  maxFhr : ℕ
deriving DecidableEq

/-- the global entry of `REGIONS` of `processor.py`. -/
def globalSpec : RegionSpec := ⟨-180, 180, -85, 85, 384⟩

/-- the conus entry of `REGIONS` of `processor.py`. -/
def conusSpec : RegionSpec := ⟨-135, -60, 20, 55, 168⟩

/-- the west entry of `REGIONS` of `processor.py`. -/
def westSpec : RegionSpec := ⟨-145, -100, 25, 50, 168⟩

/-- Python / numpy floored modulo `a % b` for `b > 0`: the result has the
sign of the divisor. -/
def pymod (a b : ℚ) : ℚ := a - b * ⌊a / b⌋

/-- The longitude remapping of `load_var` (processor.py line 154):
`((lon + 180) % 360) - 180`. -/
def normLon (lon : ℚ) : ℚ := pymod (lon + 180) 360 - 180

/-- The coordinate normalization of `load_var` (processor.py line 154):
assign_coords with the remapped longitudes followed by sortby on latitude and
longitude,
i.e. remap every longitude and sort both coordinate axes ascending. -/
def normalizeField (f : GridField) : GridField :=
  { lats := List.insertionSort (fun x y => x ≤ y) f.lats,
    lons := List.insertionSort (fun x y => x ≤ y) (f.lons.map normLon) }

/-- Label-based slicing `coords.sel(slice(lo, hi))` of xarray/pandas,
specialized to an ascending coordinate axis (which `normalizeField`
guarantees): the selected labels are those `c` with `lo ≤ c ≤ hi`; when
`lo > hi` the selection is empty. -/
def selSliceAsc (coords : List ℚ) (lo hi : ℚ) : List ℚ :=
  coords.filter (fun c => decide (lo ≤ c) && decide (c ≤ hi))

/-- The loose crop of `process_file` (processor.py line 227):
`data.sel(latitude=slice(lat_max + 1, lat_min - 1),
longitude=slice(lon_min - 1, lon_max + 1))`, acting on the coordinate
axes of a normalized (ascending) field. -/
def cropField (f : GridField) (reg : RegionSpec) : GridField :=
  { lats := selSliceAsc f.lats (reg.latMax + 1) (reg.latMin - 1),
    lons := selSliceAsc f.lons (reg.lonMin - 1) (reg.lonMax + 1) }

/-- `data_crop.size`: number of cells of the 2-D value grid. -/
def fieldSize (f : GridField) : ℕ := f.lats.length * f.lons.length

/-- The `NWS_PRECIP_LEVELS` boundary list of `processor.py`
(inches of precipitation). -/
def NWS_PRECIP_LEVELS : List ℚ :=
  [1/100, 1/10, 1/4, 1/2, 1, 3/2, 2, 3, 4, 6, 8, 10]

/-- The `NWS_PRECIP_COLORS` hex list of `processor.py`, converted to RGBA
channels in `[0,1]`; every listed color is fully opaque. -/
def NWS_PRECIP_COLORS : List RGBA :=
  [⟨225/255, 225/255, 225/255, 1⟩, ⟨166/255, 242/255, 143/255, 1⟩,
   ⟨61/255, 186/255, 61/255, 1⟩, ⟨22/255, 107/255, 22/255, 1⟩,
   ⟨30/255, 181/255, 238/255, 1⟩, ⟨9/255, 59/255, 179/255, 1⟩,
   ⟨211/255, 43/255, 226/255, 1⟩, ⟨255/255, 0, 245/255, 1⟩,
   ⟨255/255, 186/255, 0, 1⟩, ⟨255/255, 0, 0, 1⟩,
   ⟨181/255, 0, 0, 1⟩, ⟨127/255, 0, 0, 1⟩, ⟨75/255, 0, 0, 1⟩]

/-- The matplotlib default bad-value color `(0, 0, 0, 0)`: what a colormap
returns for a NaN sample. -/
def badColor : RGBA := ⟨0, 0, 0, 0⟩

/-- `BoundaryNorm` (extend both ends) for a `ListedColormap`
whose color count equals `levels.length + 1` (the identity case of the
region scaling): a value below the lowest boundary maps to bucket `0`,
a value in `[levels[i], levels[i+1])` to bucket `i+1`, and a value at or
above the highest boundary to the last bucket.  This is the number of
boundaries less than or equal to the value. -/
def bucket (levels : List ℚ) (x : ℚ) : ℕ :=
  levels.countP (fun l => decide (l ≤ x))

/-- `cmap(norm(value))`: a NaN sample maps to the bad color, any other
sample to its bucket color. -/
def applyCmap (colors : List RGBA) (levels : List ℚ) (v : Option ℚ) : RGBA :=
  match v with
  | none => badColor
  | some x => colors.getD (bucket levels x) badColor

/-- A numpy comparison `v < t` on a possibly-NaN sample: NaN compares
false. -/
def numLt (v : Option ℚ) (t : ℚ) : Bool :=
  match v with
  | none => false
  | some x => decide (x < t)

/-- The per-pixel render of `process_file` (processor.py lines 243-258):
colormap lookup through the boundary norm, then the masking branch —
when var_key equals tp, pixels whose sample is `< 0.01` get alpha `0`;
for every other variable the alpha channel of every pixel is set to
`0.7`. -/
def renderPixel (var_key : String) (colors : List RGBA) (levels : List ℚ)
    (v : Option ℚ) : RGBA :=
  let c := applyCmap colors levels v
  if var_key == "tp" then
    if numLt v (1/100) then ⟨c.r, c.g, c.b, 0⟩ else c
  else ⟨c.r, c.g, c.b, 7/10⟩

/-- The stats computation of `process_file` (processor.py lines 236-241):
drop the NaN entries of the resampled array; if nothing is left the
minimum and maximum are both `0`, otherwise they are `np.min` and
`np.max` of the valid entries. -/
def computeStats (samples : List (Option ℚ)) : ℚ × ℚ :=
  match samples.filterMap id with
  | [] => (0, 0)
  | v :: vs => (vs.foldl min v, vs.foldl max v)

/-- `(x * 255).astype(np.uint8)` for a channel value in `[0,1]`. -/
def toByte (q : ℚ) : ℕ := (⌊q * 255⌋).toNat

/-- The byte buffer handed to `Image.fromarray` (processor.py line 262). -/
def pngBytes (pixels : List RGBA) : List ℕ :=
  (pixels.map (fun c => [toByte c.r, toByte c.g, toByte c.b, toByte c.a])).flatten

/-- A written artifact: a PNG byte buffer, or the JSON stats sidecar
with keys min, max and unit (processor.py line 267). -/
inductive Artifact where
  | png (bytes : List ℕ)
  | json (mn mx : ℚ) (unit : String)
deriving DecidableEq

/-- The output directory as an association list from path to artifact;
a later write shadows an earlier one. -/
abbrev FS := List (String × Artifact)

/-- `os.path.exists` on the output directory. -/
def fsExists (fs : FS) (p : String) : Bool :=
  fs.any (fun e => e.1 == p)

/-- Read the current content at a path (the latest write). -/
def fsLookup (fs : FS) (p : String) : Option Artifact :=
  List.lookup p fs

/-- A direct (non-atomic) file write: the new content becomes current. -/
def fsWrite (fs : FS) (p : String) (art : Artifact) : FS :=
  (p, art) :: fs

/-- The static per-variable data of one `VAR_CONFIG` entry used by the
per-key pipeline: the variable key, the boundary levels, the colormap
colors and the unit label. -/
structure VarCfg where
  var_key : String
  levels : List ℚ
  colors : List RGBA
  unitLabel : String

/-- The `tp` entry of `VAR_CONFIG`. -/
def tpCfg : VarCfg := ⟨"tp", NWS_PRECIP_LEVELS, NWS_PRECIP_COLORS, "in"⟩

/-- The body of the per-(region, variable) loop of `process_file`
(processor.py lines 210-267) for one key, with the library stages as
inputs: `cached` is the data_cache entry under the config key (the normalized
decoded field, `none` when the decode failed), and `resampled` is the
flattened value array of
the unit conversion of the raw field, cropped by sel and resampled by
interp — the converted,
cropped, resampled samples (NaN as `none`).  Returns the new filesystem
and whether the render/write path ran.  In source order: skip when the
artifact exists and `REPROCESS` is unset (line 214); skip when the
variable is not in the cache (line 217); skip when the crop is empty
(line 228); otherwise compute stats, render, save the PNG, then save the
JSON sidecar. -/
def processKey (reprocess : Bool) (fs : FS) (out_path json_path : String)
    (cached : Option GridField) (reg : RegionSpec) (cfg : VarCfg)
    (resampled : List (Option ℚ)) : FS × Bool :=
  if !reprocess && fsExists fs out_path then (fs, false)
  else
    match cached with
    | none => (fs, false)
    | some f =>
      if fieldSize (cropField f reg) == 0 then (fs, false)
      else
        let stats := computeStats resampled
        let rgba := resampled.map (renderPixel cfg.var_key cfg.colors cfg.levels)
        let fs1 := fsWrite fs out_path (Artifact.png (pngBytes rgba))
        let fs2 := fsWrite fs1 json_path (Artifact.json stats.1 stats.2 cfg.unitLabel)
        (fs2, true)

/-- The output filename of `process_file` (processor.py line 210):
`f"aigfs_{reg_name}_{date_str}_{run}_{fhr_str}_{var_key}.png"`. -/
def out_filename (reg_name date_str run fhr_str var_key : String) : String :=
  "aigfs_" ++ reg_name ++ "_" ++ date_str ++ "_" ++ run ++ "_" ++ fhr_str ++
    "_" ++ var_key ++ ".png"

/-- The Python replace call that strips every .png occurrence, over a
character list: scan left to
right, dropping every occurrence of `.png`. -/
def replaceDotPng : List Char → List Char
  | '.' :: 'p' :: 'n' :: 'g' :: rest => replaceDotPng rest
  | c :: rest => c :: replaceDotPng rest
  | [] => []

/-- Python `s.split(sep)` over a character list (auxiliary accumulator
form). -/
def splitCharAux (sep : Char) : List Char → List Char → List (List Char)
  | [], acc => [acc.reverse]
  | c :: rest, acc =>
    if c == sep then acc.reverse :: splitCharAux sep rest []
    else splitCharAux sep rest (c :: acc)

/-- Python `s.split(sep)` over a character list. -/
def splitChar (sep : Char) (s : List Char) : List (List Char) :=
  splitCharAux sep s []

/-- Whether `p` is an initial segment of `s`. -/
def startsWithChars : List Char → List Char → Bool
  | [], _ => true
  | _ :: _, [] => false
  | p :: ps, c :: cs => p == c && startsWithChars ps cs

/-- Whether `p` is a final segment of `s`. -/
def endsWithChars (p s : List Char) : Bool :=
  startsWithChars p.reverse s.reverse

/-- The filename filter of the catalog builder in `app.py` (lines 67-71):
a file contributes to the catalog iff it ends in `.png`, does not start
with legend_, and the underscore split of the name with .png stripped
has exactly six
tokens. -/
def catalogAccepts (f : String) : Bool :=
  endsWithChars ".png".toList f.toList
    && !startsWithChars "legend_".toList f.toList
    && (splitChar '_' (replaceDotPng f.toList)).length == 6

/-- A set of existing filesystem paths (for the index-handle and
write-sequence models). -/
abbrev Paths := List String

/-- Creation of a file at a path. -/
def pathsAdd (fs : Paths) (p : String) : Paths := p :: fs

/-- `if os.path.exists(p): os.remove(p)` — remove the path when present. -/
def pathsRemoveIf (fs : Paths) (p : String) : Paths :=
  fs.filter (fun q => q != p)

/-- The possible outcomes of the `xr.open_dataset(..., indexpath=...)`
call inside `load_var` (processor.py lines 142-143): the call either
returns a dataset whose `data_vars` is non-empty or empty, or raises an
exception — after the index file was created on disk, or before. -/
inductive OpenOutcome where
  | okVars
  | okNoVars
  | raiseAfterIdx
  | raiseBeforeIdx

/-- The filesystem effect of `load_var` (processor.py lines 139-160) on
the ephemeral index file at `index_path`, given the outcome of the
`open_dataset` call; the returned flag says whether the variable was
stored into `data_cache`.  On a dataset with no data_vars: close, remove
the index, return (lines 144-149).  On success: cache the normalized
variable, close, remove the index (lines 151-157).  On an exception the
handler is `except Exception: pass` (lines 158-160) — nothing is
removed. -/
def load_var (fs : Paths) (index_path : String) (o : OpenOutcome) :
    Paths × Bool :=
  match o with
  | OpenOutcome.raiseBeforeIdx => (fs, false)
  | OpenOutcome.raiseAfterIdx => (pathsAdd fs index_path, false)
  | OpenOutcome.okNoVars =>
      (pathsRemoveIf (pathsAdd fs index_path) index_path, false)
  | OpenOutcome.okVars =>
      (pathsRemoveIf (pathsAdd fs index_path) index_path, true)

/-- One observable filesystem operation of the artifact-writing code. -/
inductive WriteOp where
  | write (path : String)
  | rename (src dst : String)
deriving DecidableEq

/-- The effect of one operation on the set of existing paths. -/
def applyOp (fs : Paths) : WriteOp → Paths
  | WriteOp.write p => p :: fs
  | WriteOp.rename src dst => dst :: fs.filter (fun q => q != src)

/-- All states a concurrent reader can observe while a sequence of
operations runs: the state before each operation and the final state. -/
def observableStates (fs : Paths) : List WriteOp → List Paths
  | [] => [fs]
  | op :: rest => fs :: observableStates (applyOp fs op) rest

/-- The write sequence of `process_file` for one tile key
(processor.py lines 261-267): `img.save(out_path, "PNG")` followed by
the open and json.dump of the sidecar — two direct writes to the final
paths, with no temporary path and no rename. -/
def tileWriteOps (out_path json_path : String) : List WriteOp :=
  [WriteOp.write out_path, WriteOp.write json_path]

/-- The atomicity property asserted by the spec for one tile key: in
every observable state, the tile image and its sidecar are either both
absent or both present. -/
def keyAtomic (fs : Paths) (ops : List WriteOp) (png json : String) : Prop :=
  ∀ s ∈ observableStates fs ops, (png ∈ s ↔ json ∈ s)

/-- The result of running a block of Python code: a normal value, or a
raised exception carrying its message. -/
inductive PyResult (α : Type) where
  | ok (val : α)
  | exn (msg : String)
deriving DecidableEq

/-- The region/variable loops inside the `try` of `process_file`
(processor.py lines 178-272), abstracted over the outcome of each
per-key iteration: an iteration either completes (`ok`) or raises (for
example `OSError` from `img.save` on a full disk); a raise propagates
out of the loops immediately, abandoning the remaining keys, and a
completed loop reaches `return True` (line 272). -/
def runKeys : List (PyResult Unit) → PyResult Bool
  | [] => PyResult.ok true
  | PyResult.ok _ :: rest => runKeys rest
  | PyResult.exn m :: _ => PyResult.exn m

/-- The outer handler of `process_file` (processor.py lines 274-276):
`except Exception as e: print(...); return False` — any exception from
the body becomes a normal `False` return. -/
def process_file_result : PyResult Bool → Bool
  | PyResult.ok b => b
  | PyResult.exn _ => false

/-- `process_file` as seen by its caller: run the per-key iterations,
catch any exception with the outer handler. -/
def process_file (keys : List (PyResult Unit)) : Bool :=
  process_file_result (runKeys keys)

/-- One scheduling cycle of `run_processor_service` (processor.py lines
300-313): `pool.map(process_file, files_to_process)` — every discovered
file is processed and the returned booleans are collected (and then
discarded); the loop continues regardless. -/
def runCycle (files : List (List (PyResult Unit))) : List Bool :=
  files.map process_file

/-- The claim C2 compares the pipeline against this predicate, written
from the words of the spec: the intersection of the normalized
coordinate domain of the field with the bounding box of the region is
non-empty. -/
def specOverlapNonempty (f : GridField) (reg : RegionSpec) : Bool :=
  f.lats.any (fun la => decide (reg.latMin ≤ la) && decide (la ≤ reg.latMax))
    && f.lons.any (fun lo => decide (reg.lonMin ≤ lo) && decide (lo ≤ reg.lonMax))

/-- A concrete normalized field whose domain overlaps the `conus`
region: latitudes 30, 40, 50 and longitudes -120, -110, -100 (already
sorted ascending, longitudes in the canonical interval). -/
def exampleConusField : GridField := ⟨[30, 40, 50], [-120, -110, -100]⟩

/-! ## Helper lemmas -/

lemma pymod_eq_fract (a : ℚ) : pymod a 360 = 360 * Int.fract (a / 360) := by
  unfold pymod
  rw [Int.fract]
  field_simp

lemma pymod_360_nonneg (a : ℚ) : 0 ≤ pymod a 360 := by
  rw [pymod_eq_fract]
  exact mul_nonneg (by norm_num) (Int.fract_nonneg _)

lemma pymod_360_lt (a : ℚ) : pymod a 360 < 360 := by
  rw [pymod_eq_fract]
  have h := Int.fract_lt_one (a / 360)
  nlinarith

lemma runKeys_replicate_ok (n : ℕ) (rest : List (PyResult Unit)) :
    runKeys (List.replicate n (PyResult.ok ()) ++ rest) = runKeys rest := by
  induction n with
  | zero => rfl
  | succ k ih => simpa [List.replicate_succ, runKeys] using ih

/-! ## Claim theorems -/

/-- C7: for every input longitude L the remapping ((L + 180) mod 360) - 180
lies in the half-open interval [-180, 180), and after the normalization of
load_var both the latitude and the longitude coordinate arrays are sorted
ascending (the cropping/regridding stage receives the field only in this
normalized form), with every normalized longitude in [-180, 180). -/
theorem c7_normLon_range_and_sorted (L : ℚ) (f : GridField) :
    (-180 ≤ normLon L ∧ normLon L < 180)
  ∧ List.Sorted (fun x y => x ≤ y) (normalizeField f).lats
  ∧ List.Sorted (fun x y => x ≤ y) (normalizeField f).lons
  ∧ (∀ x ∈ (normalizeField f).lons, -180 ≤ x ∧ x < 180) := by
  have hlo : ∀ y : ℚ, -180 ≤ normLon y := by
    intro y
    have := pymod_360_nonneg (y + 180)
    unfold normLon
    linarith
  have hhi : ∀ y : ℚ, normLon y < 180 := by
    intro y
    have := pymod_360_lt (y + 180)
    unfold normLon
    linarith
  refine ⟨⟨hlo L, hhi L⟩, ?_, ?_, ?_⟩
  · exact List.sorted_insertionSort _ _
  · exact List.sorted_insertionSort _ _
  · intro x hx
    have hx2 : x ∈ f.lons.map normLon :=
      ((List.perm_insertionSort _ _).mem_iff).mp hx
    obtain ⟨y, _, rfl⟩ := List.mem_map.mp hx2
    exact ⟨hlo y, hhi y⟩

/-- C3: the tile filename is aigfs_<region>_<date>_<run>_<fhr>_<var>.png,
but splitting the stripped base name on the underscore yields six tokens
only for t2m, tp and prmsl: for wind_speed it yields seven, and the
catalog builder of app.py, which keeps exactly the files whose split has
six tokens, drops every wind_speed tile while accepting the others. -/
theorem c3_wind_speed_filename_breaks_catalog :
    (splitChar '_' (replaceDotPng
        (out_filename "conus" "20231027" "12" "006" "wind_speed").toList)).length = 7
  ∧ (splitChar '_' (replaceDotPng
        (out_filename "conus" "20231027" "12" "006" "t2m").toList)).length = 6
  ∧ (splitChar '_' (replaceDotPng
        (out_filename "conus" "20231027" "12" "006" "tp").toList)).length = 6
  ∧ (splitChar '_' (replaceDotPng
        (out_filename "conus" "20231027" "12" "006" "prmsl").toList)).length = 6
  ∧ catalogAccepts (out_filename "conus" "20231027" "12" "006" "wind_speed") = false
  ∧ catalogAccepts (out_filename "conus" "20231027" "12" "006" "t2m") = true := by
  refine ⟨by decide, by decide, by decide, by decide, by decide, by decide⟩

/-- C4 counterexample: a write failure (modelled as a raised exception in
the per-key loop) is not propagated out of per-file processing — the
per-file handler turns it into a plain False return, and the next file of
the same cycle is still processed. -/
theorem c4_write_error_swallowed_cex :
    process_file [PyResult.exn "disk full"] = false
  ∧ runCycle [[PyResult.exn "disk full"], [PyResult.ok ()]] = [false, true] :=
  ⟨rfl, rfl⟩

/-- C4 amended: a write failure aborts the remaining keys of the current
file (the exception propagates out of the loops), but the catch-all
handler of process_file converts it to a False return; the scheduling
cycle processes every discovered file regardless and the service
continues — write errors are never propagated to the caller and the
service does not stop. -/
theorem c4_write_error_caught_cycle_continues (n : ℕ) (msg : String)
    (rest ks : List (PyResult Unit)) (files : List (List (PyResult Unit))) :
    process_file (List.replicate n (PyResult.ok ()) ++ PyResult.exn msg :: rest) = false
  ∧ runKeys (List.replicate n (PyResult.ok ()) ++ PyResult.exn msg :: rest)
      = PyResult.exn msg
  ∧ runCycle (ks :: files) = process_file ks :: runCycle files
  ∧ (runCycle files).length = files.length := by
  have h := runKeys_replicate_ok n (PyResult.exn msg :: rest)
  refine ⟨?_, ?_, rfl, by simp [runCycle]⟩
  · unfold process_file
    rw [h]
    rfl
  · rw [h]
    rfl

/-- C5 counterexample: when open_dataset raises after creating the index
file on disk, load_var returns with the index file still existing —
the except branch performs no cleanup. -/
theorem c5_index_leak_on_raise_cex :
    (load_var [] "data/20231027_12/aigfs.t12z.sfc.f006.grib2.t2m.4242.idx"
        OpenOutcome.raiseAfterIdx).1
      = ["data/20231027_12/aigfs.t12z.sfc.f006.grib2.t2m.4242.idx"]
  ∧ (load_var [] "data/20231027_12/aigfs.t12z.sfc.f006.grib2.t2m.4242.idx"
        OpenOutcome.raiseAfterIdx).2 = false :=
  ⟨rfl, rfl⟩

/-- C5 amended: the ephemeral index file is removed before load_var
returns on the success path and on the variable-not-found path, but on
the exception path reached after the index file was created the file
remains on disk when the call returns (it is only collected by the
orphan sweep of a later cycle, once the parent file is gone). -/
theorem c5_index_removed_on_ok_paths (fs : Paths) (p : String) :
    p ∉ (load_var fs p OpenOutcome.okVars).1
  ∧ p ∉ (load_var fs p OpenOutcome.okNoVars).1
  ∧ p ∈ (load_var fs p OpenOutcome.raiseAfterIdx).1
  ∧ (load_var fs p OpenOutcome.raiseBeforeIdx).1 = fs := by
  refine ⟨?_, ?_, ?_, rfl⟩
  · simp [load_var, pathsRemoveIf, pathsAdd, List.mem_filter]
  · simp [load_var, pathsRemoveIf, pathsAdd, List.mem_filter]
  · simp [load_var, pathsAdd]

/-- C1 counterexample: the write sequence of process_file for one tile
key is not atomic — after the PNG save and before the JSON write, a
reader observes the tile image with no sidecar. -/
theorem c1_tile_write_not_atomic_cex :
    ¬ keyAtomic [] (tileWriteOps "static/maps/aigfs_conus_20231027_12_006_t2m.png"
        "static/maps/aigfs_conus_20231027_12_006_t2m.json")
      "static/maps/aigfs_conus_20231027_12_006_t2m.png"
      "static/maps/aigfs_conus_20231027_12_006_t2m.json" := by
  unfold keyAtomic
  decide

/-- C1 amended: process_file writes each artifact directly to its final
path — the PNG first, then the JSON sidecar, with no temporary path and
no rename — so the intermediate state after the PNG save is observable
and shows the tile image present without its sidecar; the write sequence
is not atomic to a concurrent reader. -/
theorem c1_direct_writes_not_atomic (png json : String) (fs : Paths)
    (hnotin : json ∉ fs) (hne : json ≠ png) :
    (∀ op ∈ tileWriteOps png json, op = WriteOp.write png ∨ op = WriteOp.write json)
  ∧ (png :: fs) ∈ observableStates fs (tileWriteOps png json)
  ∧ png ∈ (png :: fs)
  ∧ json ∉ (png :: fs)
  ∧ ¬ keyAtomic fs (tileWriteOps png json) png json := by
  have hobs : observableStates fs (tileWriteOps png json)
      = [fs, png :: fs, json :: png :: fs] := rfl
  have hj : json ∉ (png :: fs) := by
    simp only [List.mem_cons]
    rintro (h | h)
    · exact hne h
    · exact hnotin h
  refine ⟨?_, ?_, by simp, hj, ?_⟩
  · intro op hop
    simp only [tileWriteOps, List.mem_cons, List.mem_singleton] at hop
    rcases hop with h | h | h
    · exact Or.inl h
    · exact Or.inr h
    · exact absurd h (by simp)
  · rw [hobs]
    simp
  · intro h
    have h2 := h (png :: fs) (by rw [hobs]; simp)
    exact hj (h2.mp (by simp))

/-- C1 witness for the amended statement, at concrete paths. -/
theorem c1_direct_writes_not_atomic_witness :
    ¬ keyAtomic [] (tileWriteOps "a.png" "a.json") "a.png" "a.json" :=
  (c1_direct_writes_not_atomic "a.png" "a.json" []
    (by simp) (by decide)).2.2.2.2

lemma precip_color_alpha (i : ℕ) (h : i ≤ 12) :
    (NWS_PRECIP_COLORS.getD i badColor).a = 1 := by
  interval_cases i <;> rfl

lemma bucket_precip_le (v : ℚ) : bucket NWS_PRECIP_LEVELS v ≤ 12 := by
  have h := List.countP_le_length (p := fun l => decide (l ≤ v))
      (l := NWS_PRECIP_LEVELS)
  simpa [bucket, NWS_PRECIP_LEVELS] using h

/-- C8: for the suppress-below-threshold variable tp (threshold 0.01 in
display units), every resampled value strictly below the threshold gets
output alpha 0 regardless of its color bucket, and every value at or
above the threshold keeps the full bucket opacity, alpha 1 > 0. -/
theorem c8_tp_threshold_mask (v : ℚ) :
    (v < 1/100 →
        (renderPixel "tp" NWS_PRECIP_COLORS NWS_PRECIP_LEVELS (some v)).a = 0)
  ∧ (1/100 ≤ v →
        (renderPixel "tp" NWS_PRECIP_COLORS NWS_PRECIP_LEVELS (some v)).a = 1)
  ∧ (0 : ℚ) < 1 := by
  refine ⟨?_, ?_, by norm_num⟩
  · intro h
    have hd : numLt (some v) (1/100) = true := decide_eq_true h
    simp only [renderPixel, hd, beq_self_eq_true, if_true]
  · intro h
    have hd : numLt (some v) (1/100) = false := decide_eq_false (not_lt.mpr h)
    simp only [renderPixel, hd, beq_self_eq_true, if_true, Bool.false_eq_true,
      if_false]
    exact precip_color_alpha _ (bucket_precip_le v)

/-- C8 witness: a value of exactly half the threshold renders with alpha
0; a value of exactly the threshold renders with alpha 1 > 0. -/
theorem c8_tp_threshold_mask_witness :
    (renderPixel "tp" NWS_PRECIP_COLORS NWS_PRECIP_LEVELS (some (1/200))).a = 0
  ∧ (renderPixel "tp" NWS_PRECIP_COLORS NWS_PRECIP_LEVELS (some (1/100))).a = 1 :=
  ⟨(c8_tp_threshold_mask (1/200)).1 (by norm_num),
   (c8_tp_threshold_mask (1/100)).2.1 (by norm_num)⟩

/-- C10: for the uniform-alpha variables (t2m, prmsl, wind_speed) a NaN
resampled sample is rendered as the bad color of the colormap with alpha
forced to 0.7 — a visible translucent pixel — while for tp a NaN sample
keeps alpha 0; hence a tile whose samples are all NaN is fully
transparent only for tp. -/
theorem c10_nan_uniform_alpha_vs_tp (colors : List RGBA) (levels : List ℚ) :
    renderPixel "t2m" colors levels none = ⟨0, 0, 0, 7/10⟩
  ∧ renderPixel "prmsl" colors levels none = ⟨0, 0, 0, 7/10⟩
  ∧ renderPixel "wind_speed" colors levels none = ⟨0, 0, 0, 7/10⟩
  ∧ (0 : ℚ) < 7/10
  ∧ (renderPixel "tp" NWS_PRECIP_COLORS NWS_PRECIP_LEVELS none).a = 0
  ∧ (∀ s : List (Option ℚ), (∀ v ∈ s, v = none) →
        (∀ c ∈ s.map (renderPixel "tp" NWS_PRECIP_COLORS NWS_PRECIP_LEVELS),
            c.a = 0)
      ∧ (∀ c ∈ s.map (renderPixel "t2m" colors levels), c.a = 7/10)) := by
  refine ⟨rfl, rfl, rfl, by norm_num, rfl, ?_⟩
  intro s hs
  constructor
  · intro c hc
    obtain ⟨v, hv, rfl⟩ := List.mem_map.mp hc
    rw [hs v hv]
    rfl
  · intro c hc
    obtain ⟨v, hv, rfl⟩ := List.mem_map.mp hc
    rw [hs v hv]
    rfl

/-- C10 witness: a one-pixel all-NaN tile at concrete colormap data. -/
theorem c10_nan_uniform_alpha_vs_tp_witness :
    renderPixel "wind_speed" NWS_PRECIP_COLORS NWS_PRECIP_LEVELS none
      = ⟨0, 0, 0, 7/10⟩
  ∧ (∀ c ∈ [(none : Option ℚ)].map
        (renderPixel "tp" NWS_PRECIP_COLORS NWS_PRECIP_LEVELS), c.a = 0) :=
  ⟨(c10_nan_uniform_alpha_vs_tp NWS_PRECIP_COLORS NWS_PRECIP_LEVELS).2.2.1,
   ((c10_nan_uniform_alpha_vs_tp NWS_PRECIP_COLORS NWS_PRECIP_LEVELS).2.2.2.2.2
      [none] (by simp)).1⟩

lemma selSliceAsc_empty (coords : List ℚ) (lo hi : ℚ) (h : hi < lo) :
    selSliceAsc coords lo hi = [] := by
  unfold selSliceAsc
  apply List.filter_eq_nil_iff.mpr
  intro c _
  simp only [Bool.and_eq_true, decide_eq_true_eq, not_and]
  intro h1 h2
  linarith

/-- C2 (evaluating the code at the failing input): the latitude crop
slice of process_file runs from lat_max + 1 down to lat_min - 1, but
load_var sorted latitudes ascending, so for each configured region the
selected latitude range is empty for every field; in particular a
successfully decoded, normalized field whose domain overlaps the conus
region yields no tile — processKey skips at the empty-crop check and
writes nothing. -/
theorem c2_crop_always_empty_no_tile :
    (∀ f : GridField,
        (cropField f globalSpec).lats = []
      ∧ (cropField f conusSpec).lats = []
      ∧ (cropField f westSpec).lats = [])
  ∧ List.Sorted (fun x y => x ≤ y) exampleConusField.lats
  ∧ List.Sorted (fun x y => x ≤ y) exampleConusField.lons
  ∧ (∀ x ∈ exampleConusField.lons, -180 ≤ x ∧ x < 180)
  ∧ specOverlapNonempty exampleConusField conusSpec = true
  ∧ (∀ (outP jsonP : String) (cfg : VarCfg) (samples : List (Option ℚ)),
        processKey false [] outP jsonP (some exampleConusField) conusSpec cfg
          samples = ([], false)) := by
  have hconus : (cropField exampleConusField conusSpec).lats = [] :=
    selSliceAsc_empty _ _ _ (by norm_num [conusSpec])
  refine ⟨?_, by decide, by decide, by decide, by decide, ?_⟩
  · intro f
    exact ⟨selSliceAsc_empty _ _ _ (by norm_num [globalSpec]),
      selSliceAsc_empty _ _ _ (by norm_num [conusSpec]),
      selSliceAsc_empty _ _ _ (by norm_num [westSpec])⟩
  · intro outP jsonP cfg samples
    have hsize : fieldSize (cropField exampleConusField conusSpec) = 0 := by
      unfold fieldSize
      rw [hconus]
      simp
    simp [processKey, fsExists, hsize]

lemma foldl_min_le_init (vs : List ℚ) (v : ℚ) : vs.foldl min v ≤ v := by
  induction vs generalizing v with
  | nil => exact le_refl v
  | cons a as ih => exact le_trans (ih (min v a)) (min_le_left _ _)

lemma foldl_min_le_mem (vs : List ℚ) (v x : ℚ) (hx : x ∈ vs) :
    vs.foldl min v ≤ x := by
  induction vs generalizing v with
  | nil => cases hx
  | cons a as ih =>
    rcases List.mem_cons.mp hx with h | h
    · subst h
      exact le_trans (foldl_min_le_init as (min v x)) (min_le_right _ _)
    · exact ih _ h

lemma foldl_max_init_le (vs : List ℚ) (v : ℚ) : v ≤ vs.foldl max v := by
  induction vs generalizing v with
  | nil => exact le_refl v
  | cons a as ih => exact le_trans (le_max_left _ _) (ih (max v a))

lemma foldl_max_mem_le (vs : List ℚ) (v x : ℚ) (hx : x ∈ vs) :
    x ≤ vs.foldl max v := by
  induction vs generalizing v with
  | nil => cases hx
  | cons a as ih =>
    rcases List.mem_cons.mp hx with h | h
    · subst h
      exact le_trans (le_max_right _ _) (foldl_max_init_le as (max v x))
    · exact ih _ h

lemma foldl_min_mem (vs : List ℚ) (v : ℚ) : vs.foldl min v ∈ v :: vs := by
  induction vs generalizing v with
  | nil => exact List.mem_singleton.mpr rfl
  | cons a as ih =>
    have h := ih (min v a)
    have heq : (a :: as).foldl min v = as.foldl min (min v a) := rfl
    rw [heq]
    rcases List.mem_cons.mp h with h1 | h1
    · rw [h1]
      rcases min_choice v a with hm | hm
      · rw [hm]; exact List.mem_cons_self _ _
      · rw [hm]; exact List.mem_cons_of_mem _ (List.mem_cons_self _ _)
    · exact List.mem_cons_of_mem _ (List.mem_cons_of_mem _ h1)

lemma foldl_max_mem (vs : List ℚ) (v : ℚ) : vs.foldl max v ∈ v :: vs := by
  induction vs generalizing v with
  | nil => exact List.mem_singleton.mpr rfl
  | cons a as ih =>
    have h := ih (max v a)
    have heq : (a :: as).foldl max v = as.foldl max (max v a) := rfl
    rw [heq]
    rcases List.mem_cons.mp h with h1 | h1
    · rw [h1]
      rcases max_choice v a with hm | hm
      · rw [hm]; exact List.mem_cons_self _ _
      · rw [hm]; exact List.mem_cons_of_mem _ (List.mem_cons_self _ _)
    · exact List.mem_cons_of_mem _ (List.mem_cons_of_mem _ h1)

/-- A synthetic region whose south bound exceeds its north bound by more
than two degrees: with the descending slice bounds of the crop, this is
the shape of region for which the crop selection is non-empty, used to
exercise the render/write branch at concrete inputs. -/
def witRegion : RegionSpec := ⟨-1, 1, 52, 0, 0⟩

/-- A one-cell field inside the crop window of witRegion. -/
def witField : GridField := ⟨[50], [0]⟩

lemma witField_crop_nonzero : fieldSize (cropField witField witRegion) ≠ 0 := by
  norm_num [fieldSize, cropField, selSliceAsc, witField, witRegion,
    List.filter_cons, decide_eq_true_eq]

/-- C9: the sidecar minimum and maximum are the minimum and maximum of
the converted, cropped, pre-quantization resampled array with NaN
entries excluded (they bound every valid sample and are attained by
valid samples, and prepending a NaN entry changes nothing); when every
entry is NaN the stats are (0, 0); and whenever the render branch runs,
the tile image is written and the sidecar records exactly these stats
with the display-unit label of the variable. -/
theorem c9_stats_exclude_nan (samples : List (Option ℚ)) (fs : FS)
    (outP jsonP : String) (f : GridField) (reg : RegionSpec) (cfg : VarCfg) :
    (∀ x ∈ samples.filterMap id,
        (computeStats samples).1 ≤ x ∧ x ≤ (computeStats samples).2)
  ∧ computeStats (none :: samples) = computeStats samples
  ∧ (samples.filterMap id ≠ [] →
        (computeStats samples).1 ∈ samples.filterMap id
      ∧ (computeStats samples).2 ∈ samples.filterMap id)
  ∧ (samples.filterMap id = [] → computeStats samples = (0, 0))
  ∧ (fieldSize (cropField f reg) ≠ 0 →
        fsExists (processKey true fs outP jsonP (some f) reg cfg samples).1
          outP = true
      ∧ fsLookup (processKey true fs outP jsonP (some f) reg cfg samples).1
          jsonP
          = some (Artifact.json (computeStats samples).1
              (computeStats samples).2 cfg.unitLabel)) := by
  refine ⟨?_, ?_, ?_, ?_, ?_⟩
  · intro x hx
    rcases hval : samples.filterMap id with _ | ⟨v, vs⟩
    · rw [hval] at hx
      cases hx
    · rw [hval] at hx
      unfold computeStats
      rw [hval]
      rcases List.mem_cons.mp hx with h | h
      · subst h
        exact ⟨foldl_min_le_init vs x, foldl_max_init_le vs x⟩
      · exact ⟨foldl_min_le_mem vs v x h, foldl_max_mem_le vs v x h⟩
  · have hfm : (none :: samples).filterMap id = samples.filterMap id := by
      simp
    unfold computeStats
    rw [hfm]
  · intro hne
    rcases hval : samples.filterMap id with _ | ⟨v, vs⟩
    · exact absurd hval hne
    · unfold computeStats
      rw [hval]
      exact ⟨foldl_min_mem vs v, foldl_max_mem vs v⟩
  · intro h
    unfold computeStats
    rw [h]
  · intro hsz
    have hne : (fieldSize (cropField f reg) == 0) = false := by
      simpa using hsz
    constructor
    · simp [processKey, hne, fsExists, fsWrite]
    · simp [processKey, hne, fsLookup, fsWrite, List.lookup]

/-- C9 witness: an all-NaN one-pixel tile at concrete inputs — stats
(0, 0) and both artifacts written, the sidecar carrying (0, 0) and the
unit label. -/
theorem c9_stats_exclude_nan_witness :
    computeStats [(none : Option ℚ)] = (0, 0)
  ∧ fsExists (processKey true [] "t.png" "t.json" (some witField) witRegion
        tpCfg [none]).1 "t.png" = true
  ∧ fsLookup (processKey true [] "t.png" "t.json" (some witField) witRegion
        tpCfg [none]).1 "t.json"
      = some (Artifact.json 0 0 "in") := by
  have h := c9_stats_exclude_nan [none] [] "t.png" "t.json" witField witRegion
    tpCfg
  have hz : computeStats [(none : Option ℚ)] = (0, 0) :=
    h.2.2.2.1 (by simp)
  have hw := h.2.2.2.2 witField_crop_nonzero
  refine ⟨hz, hw.1, ?_⟩
  rw [hw.2, hz]
  rfl

/-- C6: when the output artifact already exists and the force-rewrite
flag is unset, processKey returns immediately — no crop, render or write
runs and the filesystem (hence every existing artifact byte) is
unchanged; running the per-key step a second time on the result of a
first run always does zero render work; and with force-rewrite set the
written PNG and sidecar contents are determined by the inputs and
configuration alone — two runs from different prior filesystem states
produce identical artifact contents at both paths. -/
theorem c6_cache_skip_idempotent_deterministic (fs fs2 : FS)
    (outP jsonP : String) (cached : Option GridField) (reg : RegionSpec)
    (cfg : VarCfg) (samples : List (Option ℚ)) (f : GridField) :
    (fsExists fs outP = true →
        processKey false fs outP jsonP cached reg cfg samples = (fs, false))
  ∧ processKey false (processKey false fs outP jsonP cached reg cfg samples).1
        outP jsonP cached reg cfg samples
      = ((processKey false fs outP jsonP cached reg cfg samples).1, false)
  ∧ (cached = some f → fieldSize (cropField f reg) ≠ 0 → outP ≠ jsonP →
        fsLookup (processKey true fs outP jsonP cached reg cfg samples).1 outP
          = fsLookup (processKey true fs2 outP jsonP cached reg cfg samples).1
              outP
      ∧ fsLookup (processKey true fs outP jsonP cached reg cfg samples).1 jsonP
          = fsLookup (processKey true fs2 outP jsonP cached reg cfg samples).1
              jsonP) := by
  refine ⟨?_, ?_, ?_⟩
  · intro h
    simp [processKey, h]
  · by_cases he : fsExists fs outP = true
    · simp [processKey, he]
    · rcases cached with _ | g
      · simp [processKey, he]
      · by_cases hcrop : (fieldSize (cropField g reg) == 0) = true
        · simp [processKey, he, hcrop]
        · simp only [Bool.not_eq_true] at he hcrop
          have h1 : processKey false fs outP jsonP (some g) reg cfg samples
              = (fsWrite (fsWrite fs outP (Artifact.png (pngBytes
                  (samples.map (renderPixel cfg.var_key cfg.colors
                    cfg.levels))))) jsonP
                  (Artifact.json (computeStats samples).1
                    (computeStats samples).2 cfg.unitLabel), true) := by
            simp [processKey, he, hcrop]
          rw [h1]
          have h2 : fsExists (fsWrite (fsWrite fs outP (Artifact.png (pngBytes
              (samples.map (renderPixel cfg.var_key cfg.colors cfg.levels)))))
              jsonP (Artifact.json (computeStats samples).1
                (computeStats samples).2 cfg.unitLabel)) outP = true := by
            simp [fsExists, fsWrite]
          simp [processKey, h2]
  · intro hc hsz hne
    subst hc
    have hcrop : (fieldSize (cropField f reg) == 0) = false := by
      simpa using hsz
    have hbe : (outP == jsonP) = false := by
      simpa using hne
    constructor
    · simp [processKey, hcrop, fsLookup, fsWrite, List.lookup, hbe]
    · simp [processKey, hcrop, fsLookup, fsWrite, List.lookup]

/-- C6 witness: at concrete inputs — an existing artifact is skipped
with the filesystem unchanged, and two forced runs from different prior
states write the same artifact content. -/
theorem c6_cache_skip_idempotent_deterministic_witness :
    processKey false [("t.png", Artifact.png [])] "t.png" "t.json" none
        witRegion tpCfg [] = ([("t.png", Artifact.png [])], false)
  ∧ fsLookup (processKey true [] "t.png" "t.json" (some witField) witRegion
        tpCfg [none]).1 "t.png"
      = fsLookup (processKey true [("x.png", Artifact.png [7])] "t.png"
          "t.json" (some witField) witRegion tpCfg [none]).1 "t.png" := by
  have h1 := (c6_cache_skip_idempotent_deterministic
    [("t.png", Artifact.png [])] [] "t.png" "t.json" none witRegion tpCfg []
    witField).1
  have h3 := (c6_cache_skip_idempotent_deterministic [] [("x.png",
    Artifact.png [7])] "t.png" "t.json" (some witField) witRegion tpCfg [none]
    witField).2.2
  exact ⟨h1 (by decide), (h3 rfl witField_crop_nonzero (by decide)).1⟩
